import Mathlib

/-!
Verification of `ppfl_python_worker/analysis/analyzer.py`.

The analyzer module has four parts: vector extraction from loosely-structured
statistics records, a field-identity gate over hierarchical field identifiers,
the Wasserstein-1 distance engine, and the comparison orchestrator.  Records
are modelled as association lists (Python dicts), identifiers as dynamic
Python values (a string, `None`, or some other object), and numbers as `ℚ`.
-/

namespace Analyzer

/-- A value stored in a statistics record: a numeric metric, or a nested
sub-mapping of numerics (the shape the `"percentiles"` key carries in the
data model). -/
inductive StatVal
| num (q : ℚ)
| dict (m : List (String × ℚ))
deriving DecidableEq

/-- A statistics record: a mapping from metric name to value, modelled as an
association list with first-match lookup (Python `dict`). -/
abbrev StatsRecord := List (String × StatVal)

/-- First-match association lookup, the semantics of `dict.get` for records. -/
def lookupVal : List (String × StatVal) → String → Option StatVal
| [], _ => none
| (k, v) :: rest, key => if k = key then some v else lookupVal rest key

/-- `stats.get(key, 0)` on a record conforming to the data model, where every
metric key holds a numeric value: a missing key defaults to `0`. -/
def getNum (stats : StatsRecord) (key : String) : ℚ :=
  match lookupVal stats key with
  | some (StatVal.num q) => q
  | _ => 0

/-- First-match association lookup inside a nested numeric sub-mapping. -/
def lookupPerc : List (String × ℚ) → String → Option ℚ
| [], _ => none
| (k, v) :: rest, key => if k = key then some v else lookupPerc rest key

/-- `m.get(key, 0)` on a nested sub-mapping: a missing key defaults to `0`. -/
def getPerc (m : List (String × ℚ)) (key : String) : ℚ :=
  match lookupPerc m key with
  | some q => q
  | none => 0

/-- `stats.get(key, {})`: reads a nested sub-mapping, defaulting to the empty
mapping when the key is absent. -/
def getDict (stats : StatsRecord) (key : String) : List (String × ℚ) :=
  match lookupVal stats key with
  | some (StatVal.dict m) => m
  | _ => []

/-- `extract_percentiles`: reads `p25`, `p50`, `p75` from the top level of the
record, each defaulting to 0 when absent. -/
def extract_percentiles (stats : StatsRecord) : List ℚ :=
  [getNum stats "p25", getNum stats "p50", getNum stats "p75"]

/-- `extract_statistics`: reads the seven scalar metrics from the top level
(default 0 each), then `percentiles` as a sub-mapping (default empty) and
`p25`, `p50`, `p75` from within it (default 0 each), in fixed order. -/
def extract_statistics (stats : StatsRecord) : List ℚ :=
  [getNum stats "min",
   getNum stats "max",
   getNum stats "mean",
   getNum stats "median",
   getNum stats "stdDev",
   getNum stats "uniqueCount",
   getNum stats "nullCount",
   getPerc (getDict stats "percentiles") "p25",
   getPerc (getDict stats "percentiles") "p50",
   getPerc (getDict stats "percentiles") "p75"]

/-- A Python value flowing into a parameter annotated `str`: an actual string,
`None` (the declared default of the field-identifier parameters), or some
other object, which has no `split` method. -/
inductive PyVal
| str (s : String)
| pyNone
| other (tag : String)
deriving DecidableEq

/-- Python truthiness of such a value: `None` and the empty string are falsy,
every other value here is truthy. -/
def truthy : PyVal → Bool
| PyVal.pyNone => false
| PyVal.str s => if s = "" then false else true
| PyVal.other _ => true

/-- Accumulator walk for `s.split("/")[-1]`: the characters after the last
slash (possibly none). -/
def lastSegAux (acc : List Char) : List Char → List Char
| [] => acc.reverse
| c :: rest => if c = '/' then lastSegAux [] rest else lastSegAux (c :: acc) rest

/-- `s.split("/")[-1].lower()`: the final `/`-separated segment of the
identifier, lower-cased character by character. -/
def leafName (s : String) : List Char :=
  (lastSegAux [] s.data).map Char.toLower

/-- Whether the first character list is a leading block of the second. -/
def leadMatch : List Char → List Char → Bool
| [], _ => true
| _ :: _, [] => false
| a :: as, b :: bs => if a = b then leadMatch as bs else false

/-- Python `a in b` on strings: `a` occurs as a contiguous block of `b`; the
empty string occurs in every string. -/
def containsSub : List Char → List Char → Bool
| a, [] => (match a with | [] => true | _ :: _ => false)
| a, b :: bs => leadMatch a (b :: bs) || containsSub a bs

/-- The splitting/normalizing step of the gate as a fallible operation: on an
actual string it yields the lower-cased leaf name; on any other object
`.split` raises (`AttributeError`). -/
def splitLowerLeaf : PyVal → Except String (List Char)
| PyVal.str s => Except.ok (leafName s)
| _ => Except.error "AttributeError"

/-- The body of the gate's guarded (`try`) block: normalize both leaf names,
then test exact equality and mutual containment; the first raised failure
propagates out of the block. -/
def gateBody (a b : PyVal) : Except String Bool :=
  match splitLowerLeaf a, splitLowerLeaf b with
  | Except.ok an, Except.ok bn =>
      Except.ok
        (if an = bn then true
         else if containsSub an bn || containsSub bn an then true
         else false)
  | Except.error e, _ => Except.error e
  | _, Except.error e => Except.error e

/-- `should_compare_fields`: false when either identifier is falsy; true on
exact full-path equality; otherwise the guarded leaf-name comparison, with any
failure of the guarded block caught and falling through to `False`. -/
def should_compare_fields (candidate_field_id root_field_id : PyVal) : Bool :=
  if truthy candidate_field_id = false ∨ truthy root_field_id = false then false
  else if candidate_field_id = root_field_id then true
  else
    match gateBody candidate_field_id root_field_id with
    | Except.ok r => r
    | Except.error _ => false

/-- `should_compare_fields` with its exception behaviour made explicit: the
whole call as a fallible computation.  The `except` clause catches any failure
of the guarded block, so an error there becomes the fall-through `False`; no
other step can raise. -/
def should_compare_fields_run (candidate_field_id root_field_id : PyVal) :
    Except String Bool :=
  if truthy candidate_field_id = false ∨ truthy root_field_id = false then
    Except.ok false
  else if candidate_field_id = root_field_id then Except.ok true
  else
    match gateBody candidate_field_id root_field_id with
    | Except.ok r => Except.ok r
    | Except.error _ => Except.ok false

/-- Modelled from the spec: the repository imports `wasserstein_distance` from
`scipy.stats`, whose code is not under `src/`.  Count of sample elements at
most `x`. -/
def countLE (s : List ℚ) (x : ℚ) : ℕ :=
  (s.filter (fun y => decide (y ≤ x))).length

/-- Modelled from the spec: the empirical CDF of a sample at `x`, the fraction
of elements at most `x` (each element carries equal weight). -/
def ecdf (s : List ℚ) (x : ℚ) : ℚ :=
  (countLE s x : ℚ) / (s.length : ℚ)

/-- Modelled from the spec: the combined breakpoints of the two samples, the
merge of both vectors into one sorted list. -/
def breakpoints (A B : List ℚ) : List ℚ :=
  List.insertionSort (· ≤ ·) (A ++ B)

/-- Modelled from the spec: walk consecutive breakpoints, accumulating
`stepWidth × |f at the left breakpoint|`; `f` is the difference of the two
empirical CDFs, constant between consecutive breakpoints. -/
def stepSum (f : ℚ → ℚ) : List ℚ → ℚ
| [] => 0
| [_] => 0
| x :: y :: rest => (y - x) * abs (f x) + stepSum f (y :: rest)

/-- Modelled from the spec: the 1-dimensional Wasserstein-1 distance between
two equal-weight empirical samples, the integral over the line of the absolute
difference of their empirical CDFs, computed over the merged breakpoints. -/
def wasserstein_distance (A B : List ℚ) : ℚ :=
  stepSum (fun x => ecdf A x - ecdf B x) (breakpoints A B)

/-- The result of a statistics comparison: a finite distance, or the
positive-infinity sentinel `float("inf")` meaning "not comparable". -/
inductive CompareResult
| infinity
| dist (d : ℚ)
deriving DecidableEq

/-- `compare_percentiles`: unconditionally extracts both percentile vectors
and returns the engine's distance. -/
def compare_percentiles (candidate_stats root_stats : StatsRecord) : ℚ :=
  wasserstein_distance (extract_percentiles candidate_stats)
    (extract_percentiles root_stats)

/-- `compare_statistics`: when both field identifiers are supplied (not
`None`) and the gate rejects the pair, returns the infinity sentinel;
otherwise extracts the full vectors and returns the engine's distance. -/
def compare_statistics (candidate_stats root_stats : StatsRecord)
    (candidate_field_id root_field_id : PyVal) : CompareResult :=
  if (candidate_field_id ≠ PyVal.pyNone ∧ root_field_id ≠ PyVal.pyNone) ∧
      should_compare_fields candidate_field_id root_field_id = false then
    CompareResult.infinity
  else
    CompareResult.dist
      (wasserstein_distance (extract_statistics candidate_stats)
        (extract_statistics root_stats))

/-- The empty string is a contiguous substring of every string, as in Python. -/
lemma containsSub_nil_left (l : List Char) : containsSub [] l = true := by
  cases l <;> simp [containsSub, leadMatch]

/-- Walking consecutive breakpoints depends on the integrand only through the
absolute value taken at each breakpoint. -/
lemma stepSum_congr (f g : ℚ → ℚ) (h : ∀ x, abs (f x) = abs (g x)) :
    ∀ l, stepSum f l = stepSum g l
  | [] => rfl
  | [_] => rfl
  | x :: y :: rest => by
      simp only [stepSum]
      rw [h x, stepSum_congr f g h (y :: rest)]

/-- A step walk over an identically-zero integrand accumulates nothing. -/
lemma stepSum_zero (f : ℚ → ℚ) (h : ∀ x, f x = 0) : ∀ l, stepSum f l = 0
  | [] => rfl
  | [_] => rfl
  | x :: y :: rest => by
      simp [stepSum, h, stepSum_zero f h (y :: rest)]

/-- The merged breakpoint list does not depend on the order of the two
samples: both merges are sorted and are permutations of one another. -/
lemma breakpoints_comm (A B : List ℚ) : breakpoints A B = breakpoints B A := by
  unfold breakpoints
  exact List.eq_of_perm_of_sorted
    ((List.perm_insertionSort _ _).trans
      (List.perm_append_comm.trans (List.perm_insertionSort _ _).symm))
    (List.sorted_insertionSort _ _) (List.sorted_insertionSort _ _)

/-- The empirical CDF depends only on the multiset of sample elements. -/
lemma ecdf_perm (V W : List ℚ) (h : V.Perm W) (x : ℚ) : ecdf V x = ecdf W x := by
  unfold ecdf countLE
  rw [(h.filter _).length_eq, h.length_eq]

/-- Claim C1: when both field identifiers are supplied (not `None`) and the
gate rejects the pair, `compare_statistics` returns the positive-infinity
sentinel, regardless of the contents of the two statistics records. -/
theorem compare_statistics_gate_false_infinity (s1 s2 : StatsRecord)
    (c r : PyVal) (hc : c ≠ PyVal.pyNone) (hr : r ≠ PyVal.pyNone)
    (hg : should_compare_fields c r = false) :
    compare_statistics s1 s2 c r = CompareResult.infinity := by
  simp [compare_statistics, hc, hr, hg]

/-- Witness for C1: with both records empty and the gate-rejected pair
`"a/foo"` versus `"b/bar"`, the sentinel is returned. -/
theorem compare_statistics_gate_false_infinity_witness :
    compare_statistics [] [] (PyVal.str "a/foo") (PyVal.str "b/bar") =
      CompareResult.infinity :=
  compare_statistics_gate_false_infinity [] [] (PyVal.str "a/foo")
    (PyVal.str "b/bar") (by decide) (by decide) (by decide)

/-- Claim C2 counterexample: the gate does not accept
`("data/user_id", "meta/UserId")` — the lower-cased leaves `"user_id"` and
`"userid"` are neither equal nor substrings of one another, so the claimed
result `true` is refuted. -/
theorem gate_userid_claim_refuted :
    ¬ should_compare_fields (PyVal.str "data/user_id")
        (PyVal.str "meta/UserId") = true := by
  decide

/-- Claim C2 amended: `should_compare_fields("data/user_id", "meta/UserId")`
returns `false`: after lower-casing, `"user_id"` and `"userid"` differ by the
underscore and the literal substring rule fails in both directions. -/
theorem gate_userid_returns_false :
    should_compare_fields (PyVal.str "data/user_id") (PyVal.str "meta/UserId") =
      false := by
  decide

/-- Claim C3 counterexample: for `candidateId = "a/"` (leaf `""`) and
`rootId = "b/c"` (leaf `"c"`), the gate returns `true`, not `false`: the code
has no emptiness guard on leaf names and the empty string is a substring of
every string. -/
theorem gate_empty_leaf_cex :
    should_compare_fields (PyVal.str "a/") (PyVal.str "b/c") = true := by
  decide

/-- Claim C3 amended: the containment rule has no emptiness guard: for any two
non-empty identifiers, whenever at least one lower-cased leaf name is the
empty string, the gate returns `true` (an empty leaf is a substring of every
leaf, and two empty leaves are equal). -/
theorem gate_empty_leaf_true (c r : String) (hc : c ≠ "") (hr : r ≠ "")
    (h : leafName c = [] ∨ leafName r = []) :
    should_compare_fields (PyVal.str c) (PyVal.str r) = true := by
  have tc : truthy (PyVal.str c) = true := by simp [truthy, hc]
  have tr : truthy (PyVal.str r) = true := by simp [truthy, hr]
  unfold should_compare_fields
  rw [if_neg (by simp [tc, tr])]
  by_cases he : PyVal.str c = PyVal.str r
  · rw [if_pos he]
  · rw [if_neg he]
    simp only [gateBody, splitLowerLeaf]
    by_cases hl : leafName c = leafName r
    · simp [hl]
    · have hsub : containsSub (leafName c) (leafName r) = true ∨
          containsSub (leafName r) (leafName c) = true := by
        rcases h with h | h
        · exact Or.inl (by rw [h]; exact containsSub_nil_left _)
        · exact Or.inr (by rw [h]; exact containsSub_nil_left _)
      rcases hsub with hs | hs <;> simp [hl, hs]

/-- Witness for C3 amended: `"a/"` has the empty leaf and `"b/c"` is
non-empty, and the gate returns `true` on the pair. -/
theorem gate_empty_leaf_true_witness :
    should_compare_fields (PyVal.str "a/") (PyVal.str "b/c") = true :=
  gate_empty_leaf_true "a/" "b/c" (by decide) (by decide) (Or.inl (by decide))

/-- Claim C4: extraction is total and defaulting: every record yields a
length-10 full vector and a length-3 percentile vector, and any metric whose
key is absent (at top level or inside the nested sub-mapping) contributes the
numeric value 0. -/
theorem extraction_total_defaulting (s : StatsRecord) :
    (extract_statistics s).length = 10 ∧
    (extract_percentiles s).length = 3 ∧
    (∀ k, lookupVal s k = none → getNum s k = 0) ∧
    (∀ k, lookupVal s k = none → getDict s k = []) ∧
    (∀ m k, lookupPerc m k = none → getPerc m k = 0) := by
  refine ⟨rfl, rfl, ?_, ?_, ?_⟩
  · intro k hk
    simp [getNum, hk]
  · intro k hk
    simp [getDict, hk]
  · intro m k hk
    simp [getPerc, hk]

/-- Witness for C4: on the empty record the lengths are 10 and 3, and the
absent keys `"min"`, `"percentiles"` and `"p25"` all default. -/
theorem extraction_total_defaulting_witness :
    (extract_statistics []).length = 10 ∧
    (extract_percentiles []).length = 3 ∧
    getNum [] "min" = 0 ∧ getDict [] "percentiles" = [] ∧
    getPerc [] "p25" = 0 := by
  have h := extraction_total_defaulting []
  exact ⟨h.1, h.2.1, h.2.2.1 "min" rfl, h.2.2.2.1 "percentiles" rfl,
    h.2.2.2.2 [] "p25" rfl⟩

/-- Claim C5: gating bypass: whenever at least one field identifier is `None`
(in particular when both are omitted, taking their declared `None` defaults),
`compare_statistics` equals the engine applied to the two full extracted
vectors, and the sentinel is never returned. -/
theorem compare_statistics_bypass (s1 s2 : StatsRecord) (c r : PyVal)
    (h : c = PyVal.pyNone ∨ r = PyVal.pyNone) :
    compare_statistics s1 s2 c r =
      CompareResult.dist
        (wasserstein_distance (extract_statistics s1) (extract_statistics s2)) := by
  rcases h with h | h <;> simp [compare_statistics, h]

/-- Witness for C5: both identifiers omitted (both `None`) on empty records
yields the engine's distance on the two extracted vectors. -/
theorem compare_statistics_bypass_witness :
    compare_statistics [] [] PyVal.pyNone PyVal.pyNone =
      CompareResult.dist
        (wasserstein_distance (extract_statistics []) (extract_statistics [])) :=
  compare_statistics_bypass [] [] PyVal.pyNone PyVal.pyNone (Or.inl rfl)

/-- Claim C6: `extract_percentiles` reads `p25`, `p50`, `p75` from the top
level only: the record `\x7b"p25":1,"p50":2,"p75":3\x7d` yields `[1,2,3]`,
and a record carrying percentiles only inside a nested sub-mapping yields
`[0,0,0]` whatever that sub-mapping holds. -/
theorem extract_percentiles_top_level (m : List (String × ℚ)) :
    extract_percentiles
        [("p25", StatVal.num 1), ("p50", StatVal.num 2), ("p75", StatVal.num 3)] =
      [1, 2, 3] ∧
    extract_percentiles [("percentiles", StatVal.dict m)] = [0, 0, 0] := by
  constructor
  · decide
  · simp [extract_percentiles, getNum, lookupVal]

/-- Claim C7: the gate is fail-soft: run as a fallible computation it always
returns `ok` of the pure gate's answer (no exception escapes), and whenever
the guarded splitting/normalizing block raises on a pair the gate actually
reaches, the caught failure yields the result `false`. -/
theorem gate_fail_soft (a b : PyVal) :
    should_compare_fields_run a b = Except.ok (should_compare_fields a b) ∧
    (∀ e, gateBody a b = Except.error e → truthy a = true → truthy b = true →
      a ≠ b → should_compare_fields a b = false) := by
  constructor
  · unfold should_compare_fields_run should_compare_fields
    by_cases h1 : truthy a = false ∨ truthy b = false
    · simp [h1]
    · rw [if_neg h1, if_neg h1]
      by_cases h2 : a = b
      · simp [h2]
      · rw [if_neg h2, if_neg h2]
        cases hg : gateBody a b <;> simp
  · intro e he ha hb hab
    unfold should_compare_fields
    rw [if_neg (by simp [ha, hb]), if_neg hab, he]

/-- Witness for C7: the pair (non-string object, `"y"`) is truthy, unequal,
and makes the guarded block raise `AttributeError`; the run returns `ok` and
the gate returns `false`. -/
theorem gate_fail_soft_witness :
    should_compare_fields_run (PyVal.other "obj") (PyVal.str "y") =
      Except.ok (should_compare_fields (PyVal.other "obj") (PyVal.str "y")) ∧
    should_compare_fields (PyVal.other "obj") (PyVal.str "y") = false :=
  ⟨(gate_fail_soft (PyVal.other "obj") (PyVal.str "y")).1,
    (gate_fail_soft (PyVal.other "obj") (PyVal.str "y")).2 "AttributeError"
      rfl (by decide) (by decide) (by decide)⟩

/-- Claim C8: the Wasserstein-1 distance is symmetric in its two samples, of
possibly unequal lengths. -/
theorem wasserstein_distance_symm (A B : List ℚ) :
    wasserstein_distance A B = wasserstein_distance B A := by
  unfold wasserstein_distance
  rw [breakpoints_comm]
  exact stepSum_congr _ _ (fun x => abs_sub_comm _ _) _

/-- Claim C9: the Wasserstein-1 distance is zero on equal distributions: it
vanishes on a vector against itself, and against any permutation of it. -/
theorem wasserstein_distance_zero_on_perm (V W : List ℚ) :
    wasserstein_distance V V = 0 ∧
    (W.Perm V → wasserstein_distance V W = 0) := by
  constructor
  · exact stepSum_zero _ (fun x => sub_self _) _
  · intro h
    exact stepSum_zero _
      (fun x => by rw [ecdf_perm V W h.symm x]; exact sub_self _) _

/-- Witness for C9: `[2,1]` is a permutation of `[1,2]` and the distance
between them is zero. -/
theorem wasserstein_distance_zero_on_perm_witness :
    wasserstein_distance [(1 : ℚ), 2] [2, 1] = 0 :=
  (wasserstein_distance_zero_on_perm [(1 : ℚ), 2] [2, 1]).2 (by decide)

/-- Claim C10: the gate is symmetric in its two arguments for every pair of
inputs, strings, `None`, or other objects alike. -/
theorem should_compare_fields_symm (a b : PyVal) :
    should_compare_fields a b = should_compare_fields b a := by
  unfold should_compare_fields
  by_cases h1 : truthy a = false ∨ truthy b = false
  · rw [if_pos h1, if_pos (Or.symm h1)]
  · rw [if_neg h1, if_neg (fun h => h1 (Or.symm h))]
    by_cases h2 : a = b
    · rw [if_pos h2, if_pos h2.symm]
    · rw [if_neg h2, if_neg (fun h => h2 h.symm)]
      cases a <;> cases b <;> (simp only [gateBody, splitLowerLeaf]; try rfl)
      rename_i s t
      by_cases hl : leafName s = leafName t
      · simp [hl]
      · simp [hl, Ne.symm hl, Bool.or_comm]

end Analyzer
